import Mathlib

/-
Verification development for the `create-caspian-app` server entry module
(`src/dist/main.py`): a shallow embedding of the request pipeline —
middleware registration and ordering, CSRF/Auth/RPC interceptors, query
parameter coercion, page-handler result classification, the cache
admission logic of `make_handler`, and the 500 error handler — together
with theorems checking the natural-language specification against it.
External collaborators (template compilers, layout renderer, cache store,
auth predicates, RPC subsystem, session store) are modelled as opaque
function/option parameters, exactly at their call interface.
-/

set_option autoImplicit false

/-! ## Python string primitives used by the embedded code -/

/-- Model of Python `str.strip()` (whitespace on both ends). -/
def pyStrip (s : String) : String :=
  String.mk (((s.data.dropWhile Char.isWhitespace).reverse.dropWhile Char.isWhitespace).reverse)

/-- Model of Python `str.lower()` (ASCII case folding suffices here). -/
def pyLower (s : String) : String :=
  String.mk (s.data.map Char.toLower)

/-- Model of Python truthiness of a `str`: non-empty is truthy. -/
def pyTruthyStr (s : String) : Bool :=
  s != ""

def digitVal (c : Char) : Nat := c.toNat - 48

/-- Digit run with single underscores allowed between digits, accumulating
into `acc` (tail of Python's integer literal grammar used by `int(...)`). -/
def pyIntDigits : List Char → Nat → Option Nat
  | [], acc => some acc
  | ['_'], _ => none
  | '_' :: c :: rest, acc =>
      if c.isDigit then pyIntDigits rest (acc * 10 + digitVal c) else none
  | c :: rest, acc =>
      if c.isDigit then pyIntDigits rest (acc * 10 + digitVal c) else none

/-- A non-empty digit run (with medial underscores) parsed to a `Nat`. -/
def pyUnsignedDigits : List Char → Option Nat
  | [] => none
  | c :: rest => if c.isDigit then pyIntDigits rest (digitVal c) else none

def parsePyIntCore : List Char → Option Int
  | '+' :: rest => (pyUnsignedDigits rest).map Int.ofNat
  | '-' :: rest => (pyUnsignedDigits rest).map (fun n => -(Int.ofNat n : Int))
  | cs => (pyUnsignedDigits cs).map Int.ofNat

/-- Model of Python `int(value)` on strings: strip whitespace, optional
sign, decimal digits with medial underscores; `none` models `ValueError`. -/
def parsePyInt (s : String) : Option Int :=
  parsePyIntCore (pyStrip s).data

/-- Consume a digit/underscore run that starts inside digits; returns the
remaining characters, `none` on a malformed underscore placement. -/
def pyDigitsURest : List Char → Option (List Char)
  | ['_'] => none
  | '_' :: c :: rest => if c.isDigit then pyDigitsURest rest else none
  | c :: rest => if c.isDigit then pyDigitsURest rest else some (c :: rest)
  | [] => some []

/-- Consume a non-empty digit run (Python `digitpart`); returns the rest. -/
def pyDigitPart : List Char → Option (List Char)
  | c :: rest => if c.isDigit then pyDigitsURest rest else none
  | [] => none

/-- Mantissa of a Python float literal: `digitpart ["." [digitpart]]` or
`"." digitpart`; returns the unconsumed suffix. -/
def pyFloatMantissa (cs : List Char) : Option (List Char) :=
  match pyDigitPart cs with
  | some rest =>
      match rest with
      | '.' :: rest' =>
          (match pyDigitPart rest' with
           | some r => some r
           | none => some rest')
      | _ => some rest
  | none =>
      match cs with
      | '.' :: rest' => pyDigitPart rest'
      | _ => none

/-- Optional exponent `("e"|"E") [sign] digitpart` consuming the whole rest. -/
def pyFloatExp : List Char → Bool
  | [] => true
  | c :: rest =>
      if c = 'e' ∨ c = 'E' then
        match rest with
        | s :: rest' =>
            if s = '+' ∨ s = '-' then pyDigitPart rest' = some []
            else pyDigitPart (s :: rest') = some []
        | [] => false
      else false

def isPyFloatToken (cs : List Char) : Bool :=
  match pyFloatMantissa cs with
  | some rest => pyFloatExp rest
  | none => false

/-- Model of Python `float(value)` as a recogniser: `some` carries the
stripped source token standing for the parsed float (the numeric value of
the float itself is irrelevant to every claim here), `none` models
`ValueError`. -/
def parsePyFloat (s : String) : Option String :=
  let t := pyStrip s
  let body : List Char :=
    match t.data with
    | '+' :: r => r
    | '-' :: r => r
    | r => r
  let lowerBody := pyLower (String.mk body)
  if lowerBody = "inf" ∨ lowerBody = "infinity" ∨ lowerBody = "nan" then some t
  else if isPyFloatToken body then some t else none

/-! ## Handler return values (the Python value universe reaching
`make_handler`'s result inspection, `src/dist/main.py` lines 408-424) -/

/-- Python values a `page` entry function can return, as inspected by
`make_handler`: a `Response` object (opaque id), a sync/async generator
(its chunk sequence), tuples, dicts, and plain scalars. -/
inductive HVal where
  | response (id : Nat)
  | generator (chunks : List String)
  | asyncgen (chunks : List String)
  | tuple (elems : List HVal)
  | dict (entries : List (String × HVal))
  | str (s : String)
  | int (n : Int)
  | bool (b : Bool)
  | pynone

mutual
/-- Model of Python `repr` on `HVal` (string escaping is not modelled:
the development only evaluates it on quote-free strings). `Response` and
generator objects are never stringified by the code path modelled here. -/
def pyRepr : HVal → String
  | .response _ => "<Response>"
  | .generator _ => "<generator>"
  | .asyncgen _ => "<async_generator>"
  | .tuple [] => "()"
  | .tuple [x] => "(" ++ pyRepr x ++ ",)"
  | .tuple xs => "(" ++ String.intercalate ", " (pyReprList xs) ++ ")"
  | .dict es => "\x7b" ++ String.intercalate ", " (pyReprPairs es) ++ "\x7d"
  | .str s => "'" ++ s ++ "'"
  | .int n => toString n
  | .bool b => if b then "True" else "False"
  | .pynone => "None"

def pyReprList : List HVal → List String
  | [] => []
  | x :: xs => pyRepr x :: pyReprList xs

def pyReprPairs : List (String × HVal) → List String
  | [] => []
  | (k, v) :: rest => ("'" ++ k ++ "': " ++ pyRepr v) :: pyReprPairs rest
end

/-- Model of Python `str(value)`: identity on strings, otherwise `repr`. -/
def pyStr : HVal → String
  | .str s => s
  | v => pyRepr v

/-! ## Page result classification (`make_handler`, lines 408-424) -/

/-- The `PageResult` variants of §3 of the spec, as produced by the result
inspection in `make_handler`: `content` carries the rendered string plus
the layout-prop mapping (`[]` when the handler contributed none). -/
inductive PageResult where
  | rawResponse (id : Nat)
  | streamResult (chunks : List String)
  | content (c : String) (props : List (String × HVal))

/-- Transcription of the result inspection in `make_handler`:
`isinstance(result, Response)` short-circuits; generators become `SSE`;
a tuple takes `str(result[0])` as content and, when `len(result) >= 2`
and `result[1]` is a `dict`, that dict as `page_layout_props`; anything
else becomes `str(result)`. An empty tuple raises `IndexError` at
`result[0]`, modelled as `Except.error`. -/
def classifyResult : HVal → Except String PageResult
  | .response r => .ok (.rawResponse r)
  | .generator cs => .ok (.streamResult cs)
  | .asyncgen cs => .ok (.streamResult cs)
  | .tuple [] => .error "IndexError: tuple index out of range"
  | .tuple (x :: rest) =>
      .ok (.content (pyStr x)
        (match rest with
         | .dict entries :: _ => entries
         | _ => []))
  | v => .ok (.content (pyStr v) [])

/-! ## Query parameter coercion (`_unwrap_optional`, `_coerce_scalar`,
`_coerce_query_param`, lines 278-344) -/

/-- Type annotations a handler parameter can carry, as the coercion code
discriminates them: `empty` is `inspect._empty` (no annotation), `any` is
`typing.Any`, `other` stands for any further annotation (reaching the
final passthrough), `list` models `list`/`list[T]` (bare `list` has no
inner argument, the code then uses `str`), `optional` models
`Optional[T] = Union[T, None]`. -/
inductive Ann where
  | empty
  | str
  | any
  | int
  | float
  | bool
  | other
  | list (inner : Option Ann)
  | optional (inner : Ann)

/-- Coerced scalar values: the possible outputs of `_coerce_scalar`.
`vfloat` carries the accepted source token (see `parsePyFloat`). -/
inductive PyVal where
  | vnone
  | vstr (s : String)
  | vint (n : Int)
  | vfloat (f : String)
  | vbool (b : Bool)
deriving DecidableEq

/-- Transcription of `_unwrap_optional`: `Optional[T]` unwraps to `T`. -/
def _unwrap_optional : Ann → Ann
  | .optional a => a
  | a => a

/-- Transcription of `_coerce_scalar` (lines 290-317): `None` passes
through; untyped/`str`/`Any` pass through; `int`/`float` parse with
fallback to the original string; `bool` matches the stripped, lowered
value against the truthy/falsy word sets and otherwise falls back to
Python string truthiness of the original value; every other annotation
passes through. Totality of this function models "never raises". -/
def _coerce_scalar (value : Option String) ( annotation : Ann) : PyVal :=
  match value with
  | none => .vnone
  | some v =>
    match _unwrap_optional annotation with
    | .empty => .vstr v
    | .str => .vstr v
    | .any => .vstr v
    | .int =>
        match parsePyInt v with
        | some n => .vint n
        | none => .vstr v
    | .float =>
        match parsePyFloat v with
        | some f => .vfloat f
        | none => .vstr v
    | .bool =>
        let w := pyLower (pyStrip v)
        if w = "1" ∨ w = "true" ∨ w = "t" ∨ w = "yes" ∨ w = "y" ∨ w = "on" then
          .vbool true
        else if w = "0" ∨ w = "false" ∨ w = "f" ∨ w = "no" ∨ w = "n" ∨ w = "off" then
          .vbool false
        else .vbool (pyTruthyStr v)
    | _ => .vstr v

/-- Result of `_coerce_query_param`: a scalar or a coerced value list. -/
inductive QVal where
  | scalar (v : PyVal)
  | listv (vs : List PyVal)
deriving DecidableEq

/-- Model of Starlette `QueryParams.getlist(name)`: all values for the
key, in query-string order. -/
def getlistQ (qs : List (String × String)) (name : String) : List String :=
  (qs.filter (fun p => p.1 == name)).map (fun p => p.2)

/-- Model of Starlette `QueryParams.get(name)`: Starlette builds an
internal dict by comprehension over the item list, so a duplicated key
resolves to its last value. -/
def getQ (qs : List (String × String)) (name : String) : Option String :=
  (getlistQ qs name).getLast?

/-- Transcription of `_coerce_query_param` (lines 320-344): a `list[T]`
annotation (or, after `Optional` unwrapping, `Optional[list[T]]`) reads
every value of the key via `getlist` and coerces each element with the
scalar rule on the inner annotation (`str` when the bare `list` carries
none); any other annotation coerces the single (`get`) value. -/
def _coerce_query_param (qs : List (String × String)) (name : String) (ann : Ann) : QVal :=
  match ann with
  | .list inner =>
      .listv ((getlistQ qs name).map (fun v => _coerce_scalar (some v) (inner.getD .str)))
  | _ =>
    match _unwrap_optional ann with
    | .list inner =>
        .listv ((getlistQ qs name).map (fun v => _coerce_scalar (some v) (inner.getD .str)))
    | _ => .scalar (_coerce_scalar (getQ qs name) ann)

/-! ## The route handler (`make_handler`, lines 356-475) -/

/-- The HTTP request as `make_handler` consumes it. -/
structure Req where
  method : String
  uriPath : String
deriving DecidableEq

/-- The module-level `cache_settings` object a page module may declare. -/
structure CacheSettings where
  enabled : Option Bool
  ttl : Int

/-- A loaded page module: whether it defines `page`, the value its `page`
call returned, and its optional `cache_settings`. -/
structure PageModule where
  hasPage : Bool
  pageResult : HVal
  cacheSettings : Option CacheSettings

/-- External collaborators and configuration visible to `make_handler`:
the global cache flag and default TTL, the cache store's
`serve_cache(uri, DEFAULT_TTL)` reply for this request, the component
compiler, the nested-layout renderer (receiving the page content and the
layout props), the script transformer, and the root layout id the
renderer reports. -/
structure RenderEnv where
  cacheEnabled : Bool
  defaultTtl : Int
  serveCache : Option String
  transformComponents : String → String
  renderLayouts : String → List (String × HVal) → String
  transformScripts : String → String
  rootLayoutId : String

/-- Responses `make_handler` can produce: an `HTMLResponse`, a raw
handler `Response` passed through, or an `SSE` stream. -/
inductive Resp where
  | html (body : String) (status : Nat) (headers : List (String × String))
  | raw (id : Nat)
  | sse (chunks : List String)
deriving DecidableEq

/-- Observable outcome of one `make_handler` run: the response, whether
the page module was loaded, the cache save performed (uri, content, ttl),
and the layout props handed to the renderer. -/
structure HandlerTrace where
  response : Resp
  moduleLoaded : Bool
  cacheSave : Option (String × String × Int)
  layoutProps : List (String × HVal)

/-- The cache fast path (lines 364-368): only `GET` requests consult the
cache, and the code's `if cached_resp:` truthiness test makes an
empty-string cached value fall through as a miss. -/
def cacheHitContent (env : RenderEnv) (req : Req) : Option String :=
  if req.method = "GET" then env.serveCache.filter (fun c => c != "") else none

/-- The `req_should_cache` variable: the handler-declared enabled flag,
`none` when no `cache_settings` is declared. -/
def moduleEnabled (m : PageModule) : Option Bool :=
  match m.cacheSettings with
  | some cs => cs.enabled
  | none => none

/-- The `req_cache_ttl` variable: the handler-declared TTL, `0` when no
`cache_settings` is declared. -/
def moduleTtl (m : PageModule) : Int :=
  match m.cacheSettings with
  | some cs => cs.ttl
  | none => 0

/-- The shared tail of `make_handler` (lines 446-475): component
transform, nested layout rendering, script transform, the
`X-PP-Root-Layout` header, and the cache save decision. -/
def finishRender (env : RenderEnv) (req : Req) (loaded : Bool) (content : String)
    (props : List (String × HVal)) (reqShouldCache : Option Bool) (reqCacheTtl : Int) :
    HandlerTrace :=
  let html_output :=
    env.transformScripts (env.renderLayouts (env.transformComponents content) props)
  let should_cache :=
    match reqShouldCache with
    | some true => true
    | some false => false
    | none => env.cacheEnabled
  let save :=
    if should_cache = true ∧ req.method = "GET" then
      some (req.uriPath, html_output,
        if reqCacheTtl > 0 then reqCacheTtl else env.defaultTtl)
    else none
  { response := .html html_output 200 [("X-PP-Root-Layout", env.rootLayoutId)]
    moduleLoaded := loaded
    cacheSave := save
    layoutProps := props }

/-- Transcription of `make_handler` (lines 357-475) for a single request:
cache fast path first (no module load, no extra headers, no save), then —
for a `.py` route — module load, `page` presence check
(`AttributeError` when missing), result classification with raw-response
and stream short-circuits, and finally the render-and-maybe-save tail.
An `.html` route skips the module entirely and renders the template file
content with no handler cache declaration. -/
def makeHandler (env : RenderEnv) (req : Req) (isPy : Bool) (module : PageModule)
    (templateContent : String) : Except String HandlerTrace :=
  match cacheHitContent env req with
  | some cached =>
      .ok { response := .html cached 200 []
            moduleLoaded := false
            cacheSave := none
            layoutProps := [] }
  | none =>
    if isPy then
      if module.hasPage = false then
        .error "AttributeError: Missing def page()"
      else
        match classifyResult module.pageResult with
        | .error e => .error e
        | .ok (.rawResponse r) =>
            .ok { response := .raw r, moduleLoaded := true, cacheSave := none, layoutProps := [] }
        | .ok (.streamResult cs) =>
            .ok { response := .sse cs, moduleLoaded := true, cacheSave := none, layoutProps := [] }
        | .ok (.content content props) =>
            .ok (finishRender env req true content props (moduleEnabled module) (moduleTtl module))
    else
      .ok (finishRender env req false templateContent [] none 0)

/-! ## Middleware registration and ordering (lines 550-565) -/

/-- The middleware classes the module registers on the FastAPI app. -/
inductive MW where
  | sessionMW
  | csrfMW
  | authMW
  | rpcMW
deriving DecidableEq

def mwName : MW → String
  | .sessionMW => "SessionMiddleware"
  | .csrfMW => "CSRFMiddleware"
  | .authMW => "AuthMiddleware"
  | .rpcMW => "RPCMiddleware"

/-- Model of Starlette `app.add_middleware`: each call inserts at the
front of the user middleware list, so the middleware added last ends up
outermost (the code's own comment: "LAST added runs FIRST"). -/
def addMiddleware (stack : List MW) (m : MW) : List MW :=
  m :: stack

/-- The registration sequence of lines 553-558: `RPCMiddleware`, then
`AuthMiddleware`, then `CSRFMiddleware`, then `SessionMiddleware`. -/
def registeredMiddleware : List MW :=
  addMiddleware (addMiddleware (addMiddleware (addMiddleware [] .rpcMW) .authMW) .csrfMW)
    .sessionMW

/-- Wrapping one middleware around an inner app, observed as the sequence
of stations a pass-through request visits. -/
def wrapMW (m : MW) (inner : Unit → List String) : Unit → List String :=
  fun u => mwName m :: inner u

/-- The core dispatch at the centre of the onion. -/
def coreDispatch : Unit → List String :=
  fun _ => ["dispatch"]

/-- The composed application: Starlette wraps the user middleware list
front-to-back, the front element outermost. -/
def buildApp (stack : List MW) : Unit → List String :=
  stack.foldr wrapMW coreDispatch

/-- The station order a pass-through HTTP request traverses. -/
def appTrace : List String :=
  buildApp registeredMiddleware ()

/-! ## CSRFMiddleware (lines 158-182) -/

/-- The per-client session as the CSRF middleware sees it. -/
structure CsrfSession where
  csrf_token : Option String
deriving DecidableEq

/-- Transcription of lines 168-171: reuse the session token when present,
otherwise mint `fresh` (standing for `secrets.token_hex(32)`) and store
it in the session. -/
def csrfEnsureToken (sess : CsrfSession) (fresh : String) : CsrfSession × String :=
  match sess.csrf_token with
  | some t => (sess, t)
  | none => ({ csrf_token := some fresh }, fresh)

/-- Transcription of the cookie string of lines 175-177. -/
def csrfCookieValue (token : String) (isProduction : Bool) : String :=
  let cookie_value := "pp_csrf=" ++ token ++ "; Path=/; SameSite=Lax"
  if isProduction then cookie_value ++ "; Secure" else cookie_value

/-- ASGI messages as the send wrapper discriminates them: the response
start (status and headers) or anything else (body chunks, ...). -/
inductive AsgiMessage where
  | responseStart (status : Nat) (headers : List (String × String))
  | other (tag : Nat)
deriving DecidableEq

/-- Transcription of `send_wrapper` (lines 173-181): on
`http.response.start` copy the header list and append the CSRF cookie;
every other message passes through untouched. -/
def csrfSendWrapper (cookie : String) : AsgiMessage → AsgiMessage
  | .responseStart status headers =>
      .responseStart status (headers ++ [("set-cookie", cookie)])
  | m => m

/-- Transcription of `CSRFMiddleware.__call__`: non-HTTP scopes bypass
untouched; otherwise ensure the session token and route every outgoing
message through the send wrapper. The request method is part of the scope
but never consulted. -/
def csrfMiddleware (isProduction : Bool) (isHttp : Bool) (_method : String)
    (sess : CsrfSession) (fresh : String) (outgoing : List AsgiMessage) :
    CsrfSession × List AsgiMessage :=
  if isHttp = false then (sess, outgoing)
  else
    let st := csrfEnsureToken sess fresh
    (st.1, outgoing.map (csrfSendWrapper (csrfCookieValue st.2 isProduction)))

/-! ## AuthMiddleware (lines 185-240) -/

/-- Responses the auth layer can terminate with: a `RedirectResponse`
with URL and status, or an externally produced response (OAuth provider
response, custom failure handler result) identified opaquely. -/
inductive AResp where
  | redirect (url : String) (status : Nat)
  | custom (id : Nat)
deriving DecidableEq

/-- The relevant slice of `AuthSettings`, with `on_auth_failure` modelled
as the response the configured handler would return for this request. -/
structure AuthSettingsM where
  default_signin_redirect : String
  is_role_based : Bool
  on_auth_failure : Option AResp

/-- The auth instance at its call interface: the route classification
predicates, the authentication state, the role machinery, and the OAuth
provider in-flight response (already `none` when no providers are set). -/
structure AuthInst where
  settings : AuthSettingsM
  is_public_route : String → Bool
  is_auth_route : String → Bool
  is_private_route : String → Bool
  is_authenticated : Bool
  get_required_roles : String → List String
  check_role : List String → Bool
  oauth_response : Option AResp

/-- Outcome of one interceptor: forward to the inner app or terminate by
sending a response. -/
inductive AuthOutcome where
  | forwarded
  | respond (r : AResp)
deriving DecidableEq

def pathStartsWith (path pre : String) : Bool :=
  pre.data.isPrefixOf path.data

/-- The static-asset skip of line 196. -/
def isStaticAssetPath (path : String) : Bool :=
  pathStartsWith path "/css/" || pathStartsWith path "/js/" ||
    pathStartsWith path "/assets/" || pathStartsWith path "/favicon.ico"

/-- Transcription of `AuthMiddleware.__call__` (lines 190-240): non-HTTP
bypass; static-asset bypass; OAuth provider response terminates; public
routes forward; auth routes redirect authenticated users (303, to the
configured default) and forward unauthenticated ones; role-gated paths
redirect unauthenticated users to sign-in and wrongly-roled users to
`/unauthorized`; private routes redirect unauthenticated users through
the custom failure handler when configured, else to
`/signin?next=<path>` (303); everything else forwards. -/
def authMiddleware (inst : AuthInst) (isHttp : Bool) (path : String) : AuthOutcome :=
  if isHttp = false then .forwarded
  else if isStaticAssetPath path then .forwarded
  else
    match inst.oauth_response with
    | some r => .respond r
    | none =>
      if inst.is_public_route path then .forwarded
      else if inst.is_auth_route path then
        if inst.is_authenticated then
          .respond (.redirect inst.settings.default_signin_redirect 303)
        else .forwarded
      else
        let roleOutcome : Option AuthOutcome :=
          if inst.settings.is_role_based then
            match inst.get_required_roles path with
            | [] => none
            | r :: rs =>
              if inst.is_authenticated = false then
                some (.respond (.redirect ("/signin?next=" ++ path) 303))
              else if inst.check_role (r :: rs) = false then
                some (.respond (.redirect "/unauthorized" 303))
              else none
          else none
        match roleOutcome with
        | some o => o
        | none =>
          if inst.is_private_route path ∧ inst.is_authenticated = false then
            match inst.settings.on_auth_failure with
            | some resp => .respond resp
            | none => .respond (.redirect ("/signin?next=" ++ path) 303)
          else .forwarded

/-! ## RPCMiddleware (lines 243-260) -/

/-- The request as the RPC middleware sees it: scope type, method, header
list, and the session when the scope carries one (`hasattr` check). -/
structure RpcRequest where
  isHttp : Bool
  method : String
  headers : List (String × String)
  session : Option (List (String × String))

/-- Model of Starlette `Headers.get`: header names compare
case-insensitively, the first matching entry's value is returned. -/
def headerGet (hs : List (String × String)) (name : String) : Option String :=
  ((hs.filter (fun p => pyLower p.1 == pyLower name)).map (fun p => p.2)).head?

/-- Outcome of the RPC interceptor: the `_handle_rpc_request` response
(opaque id) sent as-is, or forwarding to the inner app. -/
inductive RpcOutcome where
  | diverted (respId : Nat)
  | forwarded
deriving DecidableEq

/-- Transcription of `RPCMiddleware.__call__` (lines 248-260): non-HTTP
scopes forward; a request whose `X-PP-RPC` header equals the string
`true` and whose method is `POST` is diverted to the external handler
(`handle`), receiving the request and a plain-dict snapshot of the
session (empty when the request has no session), and the handler's
response is sent back unmodified; every other request forwards. -/
def rpcMiddleware (handle : RpcRequest → List (String × String) → Nat)
    (r : RpcRequest) : RpcOutcome :=
  if r.isHttp = false then .forwarded
  else if headerGet r.headers "X-PP-RPC" = some "true" ∧ r.method = "POST" then
    .diverted (handle r (r.session.getD []))
  else .forwarded

/-! ## The 500 handler (`custom_general_exception_handler`, lines 515-548) -/

/-- The environment of one 500-handler run: the production flag, the
`traceback.format_exc()` text, whether `src/app/error.html` exists, the
combined template expansion plus nested-layout rendering as one fallible
function of the error message and the (optional) trace (`none` models a
raised exception), and the root layout id the renderer reports. -/
structure ErrEnv where
  isProduction : Bool
  formatExc : String
  errorPageExists : Bool
  renderError : String → Option String → Option String
  rootLayoutId : String

structure ErrResp where
  body : String
  status : Nat
  headers : List (String × String)
deriving DecidableEq

/-- The `error_trace` binding of line 519: the formatted traceback
outside production, `None` in production. -/
def errorTraceCtx (env : ErrEnv) : Option String :=
  if env.isProduction = false then some env.formatExc else none

/-- Transcription of `custom_general_exception_handler`: when the error
template exists, try rendering it with `error_message` and `error_trace`
bound; a successful render returns it with status 500 and the root-layout
header; a rendering failure (or a missing template) degrades to the
inline fallback built from the error message alone, status 500. -/
def custom_general_exception_handler (env : ErrEnv) (errorMessage : String) : ErrResp :=
  let error_trace := errorTraceCtx env
  let fallback : ErrResp :=
    { body := "<h1>500 - Internal Server Error</h1><p>" ++ errorMessage ++ "</p>"
      status := 500
      headers := [] }
  if env.errorPageExists then
    match env.renderError errorMessage error_trace with
    | some html_output =>
        { body := html_output
          status := 500
          headers := [("X-PP-Root-Layout", env.rootLayoutId)] }
    | none => fallback
  else fallback

/-! ## Helper lemmas -/

theorem makeHandler_content (env : RenderEnv) (req : Req) (module : PageModule)
    (c : String) (props : List (String × HVal))
    (hMiss : cacheHitContent env req = none)
    (hPage : module.hasPage = true)
    (hClass : classifyResult module.pageResult = Except.ok (PageResult.content c props)) :
    makeHandler env req true module "" =
      Except.ok (finishRender env req true c props (moduleEnabled module) (moduleTtl module)) := by
  unfold makeHandler
  rw [hMiss, hPage, hClass]
  rfl

theorem finishRender_cacheSave (env : RenderEnv) (req : Req) (loaded : Bool)
    (content : String) (props : List (String × HVal)) (rsc : Option Bool) (ttl : Int) :
    (finishRender env req loaded content props rsc ttl).cacheSave =
      if (match rsc with
          | some true => true
          | some false => false
          | none => env.cacheEnabled) = true ∧ req.method = "GET" then
        some (req.uriPath,
          env.transformScripts (env.renderLayouts (env.transformComponents content) props),
          if ttl > 0 then ttl else env.defaultTtl)
      else none := rfl

theorem finishRender_save_method (env : RenderEnv) (req : Req) (loaded : Bool)
    (content : String) (props : List (String × HVal)) (rsc : Option Bool) (ttl : Int)
    (h : (finishRender env req loaded content props rsc ttl).cacheSave.isSome = true) :
    req.method = "GET" := by
  rw [finishRender_cacheSave] at h
  split at h
  · next hc => exact hc.2
  · simp at h

/-! ## C1 -/

/-- C1 counterexample: the composed application visits the CSRF
interceptor first and the RPC interceptor last among the three
interceptors (trace `Session, CSRF, Auth, RPC, dispatch`), so the claimed
execution order "RPC check, then Auth check, then CSRF token issuance" is
false: Auth (and CSRF) run strictly before RPC. -/
theorem middleware_order_claim_false :
    appTrace = ["SessionMiddleware", "CSRFMiddleware", "AuthMiddleware",
      "RPCMiddleware", "dispatch"] ∧
    appTrace.indexOf "AuthMiddleware" < appTrace.indexOf "RPCMiddleware" ∧
    appTrace.indexOf "CSRFMiddleware" < appTrace.indexOf "AuthMiddleware" := by
  refine ⟨rfl, ?_, ?_⟩ <;> decide

/-- C1 (amended): for every inbound HTTP request the interceptor chain
executes in the order Session, then CSRF token issuance, then Auth check,
then RPC check, then core dispatch; the interceptor added last at
registration does execute first, both for the concrete registration
sequence and for `add_middleware` in general. -/
theorem middleware_execution_order :
    appTrace = ["SessionMiddleware", "CSRFMiddleware", "AuthMiddleware",
      "RPCMiddleware", "dispatch"] ∧
    registeredMiddleware.head? = some MW.sessionMW ∧
    (∀ (stack : List MW) (m : MW), (addMiddleware stack m).head? = some m) ∧
    (∀ (stack : List MW) (m : MW) (u : Unit),
      buildApp (addMiddleware stack m) u = mwName m :: buildApp stack u) := by
  refine ⟨rfl, rfl, fun stack m => rfl, fun stack m u => rfl⟩

/-! ## C2 -/

/-- C2: for every successfully rendered page response, a handler-declared
`enabled=true` forces a cache save regardless of the global flag,
`enabled=false` forces a skip, no declaration defers to the global flag;
the stored TTL is the handler's own TTL when positive and the global
default otherwise; and (second conjunct) a save ever happens only on a
`GET` request whose handler result classified as renderable content,
i.e. neither a raw `Response` nor a stream. -/
theorem cache_admission_policy :
    (∀ (env : RenderEnv) (req : Req) (module : PageModule) (c : String)
        (props : List (String × HVal)),
      req.method = "GET" →
      cacheHitContent env req = none →
      module.hasPage = true →
      classifyResult module.pageResult = Except.ok (PageResult.content c props) →
      ∃ tr, makeHandler env req true module "" = Except.ok tr ∧
        (moduleEnabled module = some true → tr.cacheSave.isSome = true) ∧
        (moduleEnabled module = some false → tr.cacheSave = none) ∧
        (moduleEnabled module = none → tr.cacheSave.isSome = env.cacheEnabled) ∧
        (∀ u s t, tr.cacheSave = some (u, s, t) →
          t = if moduleTtl module > 0 then moduleTtl module else env.defaultTtl)) ∧
    (∀ (env : RenderEnv) (req : Req) (isPy : Bool) (module : PageModule)
        (tmpl : String) (tr : HandlerTrace),
      makeHandler env req isPy module tmpl = Except.ok tr →
      tr.cacheSave.isSome = true →
      req.method = "GET" ∧
      (isPy = true →
        ∃ c props, classifyResult module.pageResult = Except.ok (PageResult.content c props))) := by
  constructor
  · intro env req module c props hGET hMiss hPage hClass
    refine ⟨_, makeHandler_content env req module c props hMiss hPage hClass, ?_, ?_, ?_, ?_⟩
    · intro h
      rw [finishRender_cacheSave, h]
      simp [hGET]
    · intro h
      rw [finishRender_cacheSave, h]
      simp
    · intro h
      rw [finishRender_cacheSave, h]
      cases hce : env.cacheEnabled <;> simp [hGET, hce]
    · intro u s t h
      rw [finishRender_cacheSave] at h
      split at h
      · rw [Option.some.injEq] at h
        exact (congrArg (fun p => p.2.2) h).symm
      · exact absurd h (by simp)
  · intro env req isPy module tmpl tr h hsome
    unfold makeHandler at h
    rcases hcc : cacheHitContent env req with _ | cached <;> rw [hcc] at h
    case some =>
      rw [Except.ok.injEq] at h
      rw [← h] at hsome
      simp at hsome
    case none =>
      cases isPy
      case false =>
        simp only [Bool.false_eq_true, if_false] at h
        rw [Except.ok.injEq] at h
        rw [← h] at hsome
        refine ⟨finishRender_save_method _ _ _ _ _ _ _ hsome, ?_⟩
        intro hcontra
        exact absurd hcontra (by simp)
      case true =>
        simp only [if_true] at h
        cases hPage : module.hasPage <;> rw [hPage] at h
        case false =>
          simp at h
        case true =>
          simp only [Bool.true_eq_false, if_false] at h
          rcases hcl : classifyResult module.pageResult with e | pr <;> rw [hcl] at h
          case error =>
            simp at h
          case ok =>
            cases pr
            case rawResponse r =>
              rw [Except.ok.injEq] at h
              rw [← h] at hsome
              simp at hsome
            case streamResult cs =>
              rw [Except.ok.injEq] at h
              rw [← h] at hsome
              simp at hsome
            case content c props =>
              rw [Except.ok.injEq] at h
              rw [← h] at hsome
              exact ⟨finishRender_save_method _ _ _ _ _ _ _ hsome,
                fun _ => ⟨c, props, rfl⟩⟩

/-- Concrete scenario for the C2 witness: global caching disabled, cache
miss, a module whose `cache_settings` declares `enabled=true`. -/
def envC2 : RenderEnv :=
  { cacheEnabled := false
    defaultTtl := 600
    serveCache := none
    transformComponents := fun s => s
    renderLayouts := fun s _ => s
    transformScripts := fun s => s
    rootLayoutId := "root" }

def reqC2 : Req := { method := "GET", uriPath := "/about" }

def moduleC2 : PageModule :=
  { hasPage := true
    pageResult := .str "hello"
    cacheSettings := some { enabled := some true, ttl := 0 } }

/-- C2 witness: with the global flag off, a handler-declared
`enabled=true` still forces a cache save. -/
theorem cache_admission_policy_witness :
    reqC2.method = "GET" ∧ envC2.cacheEnabled = false ∧
    ∃ tr, makeHandler envC2 reqC2 true moduleC2 "" = Except.ok tr ∧
      tr.cacheSave.isSome = true := by
  obtain ⟨tr, h1, h2, h3, h4, h5⟩ :=
    cache_admission_policy.1 envC2 reqC2 moduleC2 "hello" [] rfl rfl rfl rfl
  exact ⟨rfl, rfl, tr, h1, h2 rfl⟩

/-! ## C3 -/

/-- C3 counterexample: a tuple whose second element is not a mapping is
not handled by the claim's "any other value" string-conversion rule: the
code takes `str(result[0])` ("a"), not `str(result)` ("('a', 'b')"). -/
theorem page_result_tuple_counterexample :
    classifyResult (HVal.tuple [HVal.str "a", HVal.str "b"]) =
      Except.ok (PageResult.content "a" []) ∧
    pyStr (HVal.tuple [HVal.str "a", HVal.str "b"]) = "('a', 'b')" ∧
    "a" ≠ "('a', 'b')" := by
  refine ⟨rfl, by decide, by decide⟩

/-- C3 (amended): exactly one `PageResult` variant is produced per
returned value: a `Response` is returned unchanged; generators and async
generators become push streams; a non-empty tuple yields its first
element stringified as content, with its second element merged as layout
props exactly when that second element is a mapping and no extra props
otherwise; an empty tuple raises; and any non-tuple other value
(including a bare string) yields its string conversion as plain content
with no extra layout props. -/
theorem page_result_classification :
    (∀ r, classifyResult (HVal.response r) = Except.ok (PageResult.rawResponse r)) ∧
    (∀ cs, classifyResult (HVal.generator cs) = Except.ok (PageResult.streamResult cs)) ∧
    (∀ cs, classifyResult (HVal.asyncgen cs) = Except.ok (PageResult.streamResult cs)) ∧
    (∀ (x : HVal) (entries : List (String × HVal)) (rest : List HVal),
      classifyResult (HVal.tuple (x :: HVal.dict entries :: rest)) =
        Except.ok (PageResult.content (pyStr x) entries)) ∧
    (∀ x : HVal, classifyResult (HVal.tuple [x]) =
      Except.ok (PageResult.content (pyStr x) [])) ∧
    (∀ (x y : HVal) (rest : List HVal), (∀ entries, y ≠ HVal.dict entries) →
      classifyResult (HVal.tuple (x :: y :: rest)) =
        Except.ok (PageResult.content (pyStr x) [])) ∧
    (∃ e, classifyResult (HVal.tuple []) = Except.error e) ∧
    (∀ s, classifyResult (HVal.str s) = Except.ok (PageResult.content s [])) ∧
    (∀ n, classifyResult (HVal.int n) =
      Except.ok (PageResult.content (pyStr (HVal.int n)) [])) ∧
    (∀ b, classifyResult (HVal.bool b) =
      Except.ok (PageResult.content (pyStr (HVal.bool b)) [])) ∧
    (∀ es, classifyResult (HVal.dict es) =
      Except.ok (PageResult.content (pyStr (HVal.dict es)) [])) ∧
    classifyResult HVal.pynone = Except.ok (PageResult.content (pyStr HVal.pynone) []) := by
  refine ⟨fun r => rfl, fun cs => rfl, fun cs => rfl, fun x entries rest => rfl,
    fun x => rfl, ?_, ⟨_, rfl⟩, fun s => rfl, fun n => rfl, fun b => rfl,
    fun es => rfl, rfl⟩
  intro x y rest hy
  cases y
  case dict entries => exact absurd rfl (hy entries)
  all_goals rfl

/-- C3 witness: a pair whose second element is a mapping contributes its
entries as layout props; a pair whose second element is not contributes
none. -/
theorem page_result_classification_witness :
    classifyResult (HVal.tuple [HVal.str "x", HVal.dict [("k", HVal.int 1)]]) =
      Except.ok (PageResult.content "x" [("k", HVal.int 1)]) ∧
    classifyResult (HVal.tuple [HVal.str "x", HVal.int 3]) =
      Except.ok (PageResult.content "x" []) :=
  ⟨page_result_classification.2.2.2.1 (HVal.str "x") [("k", HVal.int 1)] [],
   page_result_classification.2.2.2.2.2.1 (HVal.str "x") (HVal.int 3) []
     (fun _ h => nomatch h)⟩

/-! ## C10 -/

/-- Concrete scenario for the C10 counterexample: a live cache entry
whose stored content is the empty string. -/
def envC10 : RenderEnv :=
  { cacheEnabled := false
    defaultTtl := 600
    serveCache := some ""
    transformComponents := fun s => s
    renderLayouts := fun s _ => s
    transformScripts := fun s => s
    rootLayoutId := "root" }

def reqC10 : Req := { method := "GET", uriPath := "/p" }

def moduleC10 : PageModule :=
  { hasPage := true, pageResult := .str "fresh", cacheSettings := none }

/-- C10 counterexample: when `serve_cache` returns a live entry whose
content is the empty string, the code's `if cached_resp:` truthiness test
treats it as a miss, so the handler module is loaded and invoked despite
the live cache entry — refuting the claim as stated for that input. -/
theorem cache_hit_claim_false :
    envC10.serveCache = some "" ∧ reqC10.method = "GET" ∧
    (makeHandler envC10 reqC10 true moduleC10 "").map (fun tr => tr.moduleLoaded) =
      Except.ok true :=
  ⟨rfl, rfl, rfl⟩

/-- C10 (amended): for every GET request whose URI has a live cache entry
with non-empty content, the response is built directly from the cached
content before the handler module is loaded or invoked, and — unlike a
freshly rendered page response (second conjunct) — carries no
X-PP-Root-Layout header. -/
theorem cache_hit_fast_path :
    (∀ (env : RenderEnv) (req : Req) (isPy : Bool) (module : PageModule)
        (tmpl : String) (c : String),
      req.method = "GET" → env.serveCache = some c → c ≠ "" →
      makeHandler env req isPy module tmpl =
        Except.ok { response := Resp.html c 200 []
                    moduleLoaded := false
                    cacheSave := none
                    layoutProps := [] }) ∧
    (∀ (env : RenderEnv) (req : Req) (module : PageModule) (c : String)
        (props : List (String × HVal)),
      cacheHitContent env req = none →
      module.hasPage = true →
      classifyResult module.pageResult = Except.ok (PageResult.content c props) →
      ∃ tr, makeHandler env req true module "" = Except.ok tr ∧
        tr.moduleLoaded = true ∧
        ∃ body, tr.response =
          Resp.html body 200 [("X-PP-Root-Layout", env.rootLayoutId)]) := by
  constructor
  · intro env req isPy module tmpl c hm hc hne
    have hcc : cacheHitContent env req = some c := by
      unfold cacheHitContent
      rw [hm, hc]
      simp [Option.filter, hne]
    unfold makeHandler
    rw [hcc]
  · intro env req module c props hMiss hPage hClass
    exact ⟨_, makeHandler_content env req module c props hMiss hPage hClass, rfl, ⟨_, rfl⟩⟩

/-- Concrete scenario for the C10 witness: a non-empty cached entry. -/
def envC10b : RenderEnv :=
  { envC10 with serveCache := some "<html>cached</html>" }

/-- C10 witness: a non-empty live cache entry is served directly, with no
module load, no cache save, and no X-PP-Root-Layout header. -/
theorem cache_hit_fast_path_witness :
    ("<html>cached</html>" : String) ≠ "" ∧
    makeHandler envC10b reqC10 true moduleC10 "" =
      Except.ok { response := Resp.html "<html>cached</html>" 200 []
                  moduleLoaded := false
                  cacheSave := none
                  layoutProps := [] } :=
  ⟨by decide,
   cache_hit_fast_path.1 envC10b reqC10 true moduleC10 "" "<html>cached</html>"
     rfl rfl (by decide)⟩

/-! ## C4 -/

/-- C4: scalar coercion is a total function (never raises): untyped,
`str` and `Any` annotations pass the value through unchanged; `int` and
`float` annotations parse the value and on parse failure return the
original string unchanged; `bool` annotations match the value
case-insensitively (after stripping) against the truthy word set giving
`True` and the falsy word set giving `False`, with any other value
falling back to non-empty-string truthiness. -/
theorem scalar_coercion_policy :
    (∀ v, _coerce_scalar (some v) Ann.empty = PyVal.vstr v ∧
      _coerce_scalar (some v) Ann.str = PyVal.vstr v ∧
      _coerce_scalar (some v) Ann.any = PyVal.vstr v) ∧
    (∀ v n, parsePyInt v = some n → _coerce_scalar (some v) Ann.int = PyVal.vint n) ∧
    (∀ v, parsePyInt v = none → _coerce_scalar (some v) Ann.int = PyVal.vstr v) ∧
    (∀ v f, parsePyFloat v = some f → _coerce_scalar (some v) Ann.float = PyVal.vfloat f) ∧
    (∀ v, parsePyFloat v = none → _coerce_scalar (some v) Ann.float = PyVal.vstr v) ∧
    (∀ v, (pyLower (pyStrip v) = "1" ∨ pyLower (pyStrip v) = "true" ∨
        pyLower (pyStrip v) = "t" ∨ pyLower (pyStrip v) = "yes" ∨
        pyLower (pyStrip v) = "y" ∨ pyLower (pyStrip v) = "on") →
      _coerce_scalar (some v) Ann.bool = PyVal.vbool true) ∧
    (∀ v, (pyLower (pyStrip v) = "0" ∨ pyLower (pyStrip v) = "false" ∨
        pyLower (pyStrip v) = "f" ∨ pyLower (pyStrip v) = "no" ∨
        pyLower (pyStrip v) = "n" ∨ pyLower (pyStrip v) = "off") →
      _coerce_scalar (some v) Ann.bool = PyVal.vbool false) ∧
    (∀ v, ¬(pyLower (pyStrip v) = "1" ∨ pyLower (pyStrip v) = "true" ∨
        pyLower (pyStrip v) = "t" ∨ pyLower (pyStrip v) = "yes" ∨
        pyLower (pyStrip v) = "y" ∨ pyLower (pyStrip v) = "on") →
      ¬(pyLower (pyStrip v) = "0" ∨ pyLower (pyStrip v) = "false" ∨
        pyLower (pyStrip v) = "f" ∨ pyLower (pyStrip v) = "no" ∨
        pyLower (pyStrip v) = "n" ∨ pyLower (pyStrip v) = "off") →
      _coerce_scalar (some v) Ann.bool = PyVal.vbool (pyTruthyStr v)) := by
  refine ⟨fun v => ⟨rfl, rfl, rfl⟩, ?_, ?_, ?_, ?_, ?_, ?_, ?_⟩
  · intro v n h
    unfold _coerce_scalar
    simp only [_unwrap_optional]
    rw [h]
  · intro v h
    unfold _coerce_scalar
    simp only [_unwrap_optional]
    rw [h]
  · intro v f h
    unfold _coerce_scalar
    simp only [_unwrap_optional]
    rw [h]
  · intro v h
    unfold _coerce_scalar
    simp only [_unwrap_optional]
    rw [h]
  · intro v h
    unfold _coerce_scalar
    simp only [_unwrap_optional]
    rw [if_pos h]
  · intro v h
    unfold _coerce_scalar
    simp only [_unwrap_optional]
    rw [if_neg ?_, if_pos h]
    intro habs
    rcases h with h | h | h | h | h | h <;> rcases habs with hb | hb | hb | hb | hb | hb <;>
      rw [h] at hb <;> simp at hb
  · intro v h1 h2
    unfold _coerce_scalar
    simp only [_unwrap_optional]
    rw [if_neg h1, if_neg h2]

/-- C4 witness: `"abc"` against an integer parameter returns `"abc"`
unchanged, `"42"` parses, `"YES"` and `"off"` hit the boolean word sets,
and `"maybe"` falls back to non-empty-string truthiness. -/
theorem scalar_coercion_policy_witness :
    _coerce_scalar (some "abc") Ann.int = PyVal.vstr "abc" ∧
    _coerce_scalar (some "42") Ann.int = PyVal.vint 42 ∧
    _coerce_scalar (some "YES") Ann.bool = PyVal.vbool true ∧
    _coerce_scalar (some "off") Ann.bool = PyVal.vbool false ∧
    _coerce_scalar (some "maybe") Ann.bool = PyVal.vbool true :=
  ⟨scalar_coercion_policy.2.2.1 "abc" (by decide),
   scalar_coercion_policy.2.1 "42" 42 (by decide),
   scalar_coercion_policy.2.2.2.2.2.1 "YES" (by decide),
   scalar_coercion_policy.2.2.2.2.2.2.1 "off" (by decide),
   by
     have h := scalar_coercion_policy.2.2.2.2.2.2.2 "maybe" (by decide) (by decide)
     rw [h]
     rfl⟩

/-! ## C5 -/

/-- C5: list-typed (and optional-list-typed) parameters read all values
present for the query key, in order, and coerce each element
independently with the scalar rule on the inner annotation (`str` for a
bare `list`); in particular `?x=1&x=2&x=3` against a list-of-integers
parameter yields the ordered sequence `[1, 2, 3]`. -/
theorem list_coercion_reads_all_values :
    (∀ (qs : List (String × String)) (name : String) (inner : Option Ann),
      _coerce_query_param qs name (Ann.list inner) =
        QVal.listv ((getlistQ qs name).map
          (fun v => _coerce_scalar (some v) (inner.getD Ann.str)))) ∧
    (∀ (qs : List (String × String)) (name : String) (inner : Option Ann),
      _coerce_query_param qs name (Ann.optional (Ann.list inner)) =
        QVal.listv ((getlistQ qs name).map
          (fun v => _coerce_scalar (some v) (inner.getD Ann.str)))) ∧
    _coerce_query_param [("x", "1"), ("x", "2"), ("x", "3")] "x"
        (Ann.list (some Ann.int)) =
      QVal.listv [PyVal.vint 1, PyVal.vint 2, PyVal.vint 3] := by
  refine ⟨fun qs name inner => rfl, fun qs name inner => rfl, by decide⟩

/-! ## C6 -/

/-- Concrete request for the C6 counterexample: a truthy (non-empty) RPC
marker header whose value is not the exact string `true`. -/
def rpcReqC6 : RpcRequest :=
  { isHttp := true
    method := "POST"
    headers := [("X-PP-RPC", "1")]
    session := none }

/-- C6 counterexample: a POST request whose X-PP-RPC header carries the
truthy value "1" is not diverted: the code compares the header value
against the exact string "true", not against Python truthiness. -/
theorem rpc_truthy_header_counterexample :
    headerGet rpcReqC6.headers "X-PP-RPC" = some "1" ∧
    pyTruthyStr "1" = true ∧
    rpcReqC6.method = "POST" ∧
    rpcMiddleware (fun _ _ => 0) rpcReqC6 = RpcOutcome.forwarded := by
  refine ⟨by decide, rfl, rfl, by decide⟩

/-- C6 (amended): a request is diverted to the external RPC handler
before routing exactly when its X-PP-RPC header equals the string `true`
and its method is POST; the diverted call receives the raw request and a
plain-mapping snapshot of the current session (empty when the request
carries none) and the handler's response is sent back unmodified; any
other request passes through the RPC interceptor unchanged. -/
theorem rpc_divert_policy :
    (∀ (handle : RpcRequest → List (String × String) → Nat) (r : RpcRequest),
      r.isHttp = true →
      headerGet r.headers "X-PP-RPC" = some "true" →
      r.method = "POST" →
      rpcMiddleware handle r = RpcOutcome.diverted (handle r (r.session.getD []))) ∧
    (∀ (handle : RpcRequest → List (String × String) → Nat) (r : RpcRequest) (v : String),
      headerGet r.headers "X-PP-RPC" = some v → v ≠ "true" →
      rpcMiddleware handle r = RpcOutcome.forwarded) ∧
    (∀ (handle : RpcRequest → List (String × String) → Nat) (r : RpcRequest),
      r.method ≠ "POST" → rpcMiddleware handle r = RpcOutcome.forwarded) ∧
    (∀ (handle : RpcRequest → List (String × String) → Nat) (r : RpcRequest),
      headerGet r.headers "X-PP-RPC" = none →
      rpcMiddleware handle r = RpcOutcome.forwarded) := by
  refine ⟨?_, ?_, ?_, ?_⟩
  · intro handle r h1 h2 h3
    unfold rpcMiddleware
    rw [h1]
    simp only [Bool.true_eq_false, if_false]
    rw [if_pos ⟨h2, h3⟩]
  · intro handle r v h2 hneq
    unfold rpcMiddleware
    cases h1 : r.isHttp
    · rfl
    · simp only [Bool.true_eq_false, if_false]
      rw [if_neg]
      rintro ⟨ha, _⟩
      rw [h2] at ha
      injection ha with ha'
      exact hneq ha'
  · intro handle r hm
    unfold rpcMiddleware
    cases h1 : r.isHttp
    · rfl
    · simp only [Bool.true_eq_false, if_false]
      rw [if_neg]
      rintro ⟨_, hb⟩
      exact hm hb
  · intro handle r hh
    unfold rpcMiddleware
    cases h1 : r.isHttp
    · rfl
    · simp only [Bool.true_eq_false, if_false]
      rw [if_neg]
      rintro ⟨ha, _⟩
      rw [hh] at ha
      exact Option.noConfusion ha

/-- Concrete request for the C6 witness: marker header stated in a
different letter case (header names compare case-insensitively), value
exactly `true`, a live session. -/
def rpcReqC6b : RpcRequest :=
  { isHttp := true
    method := "POST"
    headers := [("Content-Type", "application/json"), ("x-pp-rpc", "true")]
    session := some [("user", "u1")] }

/-- C6 witness: the diverted handler receives the session snapshot (here
of length 1) and its response value is returned as-is. -/
theorem rpc_divert_policy_witness :
    rpcMiddleware (fun _ s => s.length) rpcReqC6b = RpcOutcome.diverted 1 ∧
    rpcMiddleware (fun _ _ => 7) rpcReqC6 = RpcOutcome.forwarded := by
  constructor
  · have h := rpc_divert_policy.1 (fun _ s => s.length) rpcReqC6b rfl (by decide) rfl
    rw [h]
    rfl
  · exact rpc_divert_policy.2.1 (fun _ _ => 7) rpcReqC6 "1" (by decide) (by decide)

theorem string_append_assoc (a b c : String) : a ++ b ++ c = a ++ (b ++ c) := by
  apply String.ext
  simp [String.data_append]

/-! ## C7 -/

/-- C7: an authenticated request to an auth-only route (classified after
the static, OAuth and public checks) terminates with a 303 redirect to
the configured default post-signin destination; an unauthenticated
request to a private route with no custom failure handler terminates with
a 303 redirect to `/signin?next=<path>` — whatever the role-based
configuration, since the role gate issues the same redirect for
unauthenticated users. -/
theorem auth_redirect_policy :
    (∀ (inst : AuthInst) (path : String),
      isStaticAssetPath path = false →
      inst.oauth_response = none →
      inst.is_public_route path = false →
      inst.is_auth_route path = true →
      inst.is_authenticated = true →
      authMiddleware inst true path =
        AuthOutcome.respond (AResp.redirect inst.settings.default_signin_redirect 303)) ∧
    (∀ (inst : AuthInst) (path : String),
      isStaticAssetPath path = false →
      inst.oauth_response = none →
      inst.is_public_route path = false →
      inst.is_auth_route path = false →
      inst.is_private_route path = true →
      inst.is_authenticated = false →
      inst.settings.on_auth_failure = none →
      authMiddleware inst true path =
        AuthOutcome.respond (AResp.redirect ("/signin?next=" ++ path) 303)) := by
  constructor
  · intro inst path hstatic hoauth hpub hauth hia
    simp [authMiddleware, hstatic, hoauth, hpub, hauth, hia]
  · intro inst path hstatic hoauth hpub hauth hpriv hia hfail
    cases hrb : inst.settings.is_role_based
    · simp [authMiddleware, hstatic, hoauth, hpub, hauth, hpriv, hia, hfail, hrb]
    · cases hroles : inst.get_required_roles path
      · simp [authMiddleware, hstatic, hoauth, hpub, hauth, hpriv, hia, hfail, hrb, hroles]
      · simp [authMiddleware, hstatic, hoauth, hpub, hauth, hpriv, hia, hfail, hrb, hroles]

/-- Auth instance for the C7 witness: an authenticated session, `/signin`
an auth route, everything else private, no role gating, no custom
failure handler. -/
def instC7 : AuthInst :=
  { settings :=
      { default_signin_redirect := "/dashboard"
        is_role_based := false
        on_auth_failure := none }
    is_public_route := fun _ => false
    is_auth_route := fun p => p == "/signin"
    is_private_route := fun _ => true
    is_authenticated := true
    get_required_roles := fun _ => []
    check_role := fun _ => true
    oauth_response := none }

/-- The same configuration with no authenticated session. -/
def instC7b : AuthInst :=
  { instC7 with is_authenticated := false }

/-- C7 witness: the authenticated user requesting `/signin` is redirected
303 to `/dashboard`; the unauthenticated user requesting `/account` is
redirected 303 to `/signin?next=/account`. -/
theorem auth_redirect_policy_witness :
    authMiddleware instC7 true "/signin" =
      AuthOutcome.respond (AResp.redirect "/dashboard" 303) ∧
    authMiddleware instC7b true "/account" =
      AuthOutcome.respond (AResp.redirect "/signin?next=/account" 303) := by
  constructor
  · exact auth_redirect_policy.1 instC7 "/signin" (by decide) rfl rfl (by decide) rfl
  · have h := auth_redirect_policy.2 instC7b "/account" (by decide) rfl rfl (by decide)
      rfl rfl rfl
    rw [h]
    rfl

/-! ## C8 -/

/-- C8: the error renderer is handed the traceback only outside
production (first conjunct: the `error_trace` context binding is `none`
exactly in production); a failure of the error-template rendering itself
is caught and degrades to the minimal inline fallback of status 500 built
from the error message alone — the trace never reaches it (second
conjunct); a successful render is returned with status 500 (third
conjunct). -/
theorem error_handler_policy :
    (∀ env : ErrEnv, errorTraceCtx env =
      if env.isProduction = true then none else some env.formatExc) ∧
    (∀ (env : ErrEnv) (msg : String),
      env.errorPageExists = true →
      env.renderError msg (errorTraceCtx env) = none →
      custom_general_exception_handler env msg =
        { body := "<h1>500 - Internal Server Error</h1><p>" ++ msg ++ "</p>"
          status := 500
          headers := [] }) ∧
    (∀ (env : ErrEnv) (msg html : String),
      env.errorPageExists = true →
      env.renderError msg (errorTraceCtx env) = some html →
      custom_general_exception_handler env msg =
        { body := html
          status := 500
          headers := [("X-PP-Root-Layout", env.rootLayoutId)] }) := by
  refine ⟨?_, ?_, ?_⟩
  · intro env
    unfold errorTraceCtx
    cases h : env.isProduction <;> simp [h]
  · intro env msg hpage hfail
    simp only [custom_general_exception_handler]
    rw [hpage, hfail]
    rfl
  · intro env msg html hpage hok
    simp only [custom_general_exception_handler]
    rw [hpage, hok]
    rfl

/-- Environment for the C8 witness: production mode, an error template
that always fails to render. -/
def envC8 : ErrEnv :=
  { isProduction := true
    formatExc := "Traceback (most recent call last): boom"
    errorPageExists := true
    renderError := fun _ _ => none
    rootLayoutId := "root" }

/-- C8 witness: in production with a failing error template, the handler
returns the inline fallback carrying only the message, status 500, and
the context trace was `none`. -/
theorem error_handler_policy_witness :
    errorTraceCtx envC8 = none ∧
    custom_general_exception_handler envC8 "boom" =
      { body := "<h1>500 - Internal Server Error</h1><p>boom</p>"
        status := 500
        headers := [] } := by
  constructor
  · rw [error_handler_policy.1 envC8]
    rfl
  · have h := error_handler_policy.2.1 envC8 "boom" rfl rfl
    rw [h]
    rfl

/-! ## C9 -/

/-- C9: the CSRF send wrapper appends one `set-cookie` entry to the
existing response-start headers, replacing or removing none, and leaves
every other message untouched; the cookie value fixes the name
`pp_csrf`, `Path=/`, `SameSite=Lax`, with `Secure` appended exactly in
production; the token is minted once per session and reused thereafter;
the middleware never consults the request method; and every response
start in the outgoing stream receives the cookie. -/
theorem csrf_cookie_policy :
    (∀ (cookie : String) (status : Nat) (headers : List (String × String)),
      csrfSendWrapper cookie (AsgiMessage.responseStart status headers) =
        AsgiMessage.responseStart status (headers ++ [("set-cookie", cookie)])) ∧
    (∀ (cookie : String) (tag : Nat),
      csrfSendWrapper cookie (AsgiMessage.other tag) = AsgiMessage.other tag) ∧
    (∀ token, csrfCookieValue token true =
      "pp_csrf=" ++ token ++ "; Path=/; SameSite=Lax; Secure") ∧
    (∀ token, csrfCookieValue token false =
      "pp_csrf=" ++ token ++ "; Path=/; SameSite=Lax") ∧
    (∀ (sess : CsrfSession) (t fresh : String), sess.csrf_token = some t →
      csrfEnsureToken sess fresh = (sess, t)) ∧
    (∀ fresh, csrfEnsureToken { csrf_token := none } fresh =
      ({ csrf_token := some fresh }, fresh)) ∧
    (∀ (prod : Bool) (sess : CsrfSession) (fresh m1 m2 : String)
        (msgs : List AsgiMessage),
      csrfMiddleware prod true m1 sess fresh msgs =
        csrfMiddleware prod true m2 sess fresh msgs) ∧
    (∀ (prod : Bool) (method : String) (sess : CsrfSession) (fresh : String)
        (status : Nat) (headers : List (String × String)) (rest : List AsgiMessage),
      (csrfMiddleware prod true method sess fresh
          (AsgiMessage.responseStart status headers :: rest)).2 =
        AsgiMessage.responseStart status
            (headers ++ [("set-cookie",
              csrfCookieValue (csrfEnsureToken sess fresh).2 prod)]) ::
          (csrfMiddleware prod true method sess fresh rest).2) := by
  refine ⟨fun cookie status headers => rfl, fun cookie tag => rfl, ?_, fun token => rfl,
    ?_, fun fresh => rfl, fun prod sess fresh m1 m2 msgs => rfl, ?_⟩
  · intro token
    unfold csrfCookieValue
    rw [if_pos rfl, string_append_assoc]
    congr 1
  · intro sess t fresh h
    unfold csrfEnsureToken
    rw [h]
  · intro prod method sess fresh status headers rest
    rfl

/-- C9 witness: an existing session token is reused unchanged, the
appended cookie leaves prior headers intact, and the Secure attribute is
present in the production cookie string. -/
theorem csrf_cookie_policy_witness :
    csrfEnsureToken { csrf_token := some "tok123" } "freshtok" =
      ({ csrf_token := some "tok123" }, "tok123") ∧
    csrfSendWrapper "pp_csrf=tok123; Path=/; SameSite=Lax"
        (AsgiMessage.responseStart 200 [("content-type", "text/html")]) =
      AsgiMessage.responseStart 200
        [("content-type", "text/html"),
         ("set-cookie", "pp_csrf=tok123; Path=/; SameSite=Lax")] ∧
    csrfCookieValue "tok123" true = "pp_csrf=tok123; Path=/; SameSite=Lax; Secure" :=
  ⟨csrf_cookie_policy.2.2.2.2.1 { csrf_token := some "tok123" } "tok123" "freshtok" rfl,
   csrf_cookie_policy.1 "pp_csrf=tok123; Path=/; SameSite=Lax" 200
     [("content-type", "text/html")],
   (csrf_cookie_policy.2.2.1 "tok123").trans (by decide)⟩
